import Mathlib

/-!
Verification of the data-contract-validator core against its specification.

The definitions below are a shallow embedding of the Python sources:
  - src/retl_validator/core/models.py      (ValidationSeverity, ValidationIssue)
  - src/retl_validator/core/validator.py   (YAMLContractValidator)
  - src/retl_validator/extractors/dbt.py   (SQL column extraction)
  - src/retl_validator/extractors/fastapi.py (field analysis)

Python dictionaries are embedded as association lists in insertion order,
Python exceptions as `Except String`, and mutable `self.issues` state as an
explicit list argument threaded through the functions.
-/

/-! ### Generic helpers mirroring Python primitives -/

/-- Python substring test `needle in hay` on character lists. -/
def containsSub (needle : List Char) : List Char → Bool
  | [] => needle.isEmpty
  | hay@(_ :: t) => needle.isPrefixOf hay || containsSub needle t

/-- Python substring test `pat in hay` on strings. -/
def strContains (hay pat : String) : Bool :=
  containsSub pat.toList hay.toList

/-- Python whitespace class `\s` (ASCII): space, tab, newline, carriage
return, vertical tab, form feed. -/
def isSpaceChar (c : Char) : Bool :=
  c = ' ' || c = '\t' || c = '\n' || c = '\r' || c = '\x0b' || c = '\x0c'

/-- Python word-character class `\w` (ASCII): letters, digits, underscore. -/
def isWordChar (c : Char) : Bool :=
  c.isAlphanum || c = '_'

/-- Python `str.strip()`: drop whitespace from both ends. -/
def trimChars (l : List Char) : List Char :=
  ((l.dropWhile isSpaceChar).reverse.dropWhile isSpaceChar).reverse

/-- Python `len(s)` on a string, counting characters. -/
def pyLen (s : String) : Nat :=
  s.data.length

/-- Python `str.lower()` (ASCII). -/
def pyLower (s : String) : String :=
  ⟨s.data.map Char.toLower⟩

/-- Python `s[:n]`: the first `n` characters of `s` (all of `s` when
shorter). -/
def pyFirstN (s : String) (n : Nat) : String :=
  ⟨s.data.take n⟩

/-- Python `s[-n:]`: the last `n` characters of `s` (all of `s` when
shorter). -/
def strLastN (s : String) (n : Nat) : String :=
  ⟨s.data.drop (s.data.length - n)⟩

/-- Python `str.startswith`. -/
def pyStartsWith (s t : String) : Bool :=
  t.data.isPrefixOf s.data

/-- Python `str.endswith`. -/
def pyEndsWith (s t : String) : Bool :=
  t.data.isSuffixOf s.data

/-- Python `str.split()` with no argument: split on whitespace runs,
discarding empty fragments. Accumulator holds the current word reversed. -/
def pySplitWsAux : List Char → List Char → List (List Char)
  | [], cur => if cur.isEmpty then [] else [cur.reverse]
  | c :: rest, cur =>
    if isSpaceChar c then
      if cur.isEmpty then pySplitWsAux rest []
      else cur.reverse :: pySplitWsAux rest []
    else pySplitWsAux rest (c :: cur)

/-- Python `str.split()` with no argument. -/
def pySplitWs (l : List Char) : List (List Char) :=
  pySplitWsAux l []

/-- Python `dict[k] = v`: replace in place when the key exists (keeping its
original position), otherwise append at the end (insertion order). -/
def updateAssoc {α : Type} (l : List (String × α)) (k : String) (v : α) :
    List (String × α) :=
  if l.any (fun p => p.1 == k) then
    l.map (fun p => if p.1 == k then (k, v) else p)
  else l ++ [(k, v)]

/-- Python `dict.get(k)`: first binding of `k`, if any. -/
def lookupAssoc {α : Type} (l : List (String × α)) (k : String) : Option α :=
  (l.find? (fun p => p.1 == k)).map (·.2)

/-- Map over the exception of an `Except` value. -/
def withErr {ε ε' α : Type} (f : ε → ε') : Except ε α → Except ε' α
  | .ok a => .ok a
  | .error e => .error (f e)

/-! ### models.py: ValidationSeverity and ValidationIssue -/

/-- `ValidationSeverity` enum from models.py: ERROR="error",
WARNING="warning", INFO="info". -/
inductive ValidationSeverity where
  | ERROR
  | WARNING
  | INFO
deriving DecidableEq, Repr

/-- The `.value` of a `ValidationSeverity` member. -/
def severityValue : ValidationSeverity → String
  | .ERROR => "error"
  | .WARNING => "warning"
  | .INFO => "info"

/-- Python `ValidationSeverity(value)` lookup by value; `none` models the
ValueError raised on an unknown value. -/
def severityOfValue : String → Option ValidationSeverity
  | "error" => some .ERROR
  | "warning" => some .WARNING
  | "info" => some .INFO
  | _ => none

/-- The `ValidationIssue` dataclass from models.py, with the same fields,
defaults and field order. Note: it has a `suggested_fix` field and NO
`suggestion` field. -/
structure ValidationIssue where
  severity : ValidationSeverity
  table : String
  column : Option String
  message : String
  category : String := "Unknown"
  suggested_fix : Option String := none
  file_path : Option String := none
  fastapi_expectation : Option String := none
  dbt_output : Option String := none
deriving DecidableEq, Repr

/-- The dictionary produced by `ValidationIssue.to_dict` and consumed by
`ValidationIssue.from_dict`. Every field is optional because `from_dict`
reads each key with `dict.get` and a default; `to_dict` always emits all
keys. -/
structure IssueDict where
  severity : Option String
  category : Option String
  table : Option String
  column : Option String
  message : Option String
  suggested_fix : Option String
  file_path : Option String
  fastapi_expectation : Option String
  dbt_output : Option String
deriving DecidableEq, Repr

/-- `ValidationIssue.to_dict` from models.py. -/
def ValidationIssue.toDict (i : ValidationIssue) : IssueDict where
  severity := some (severityValue i.severity)
  category := some i.category
  table := some i.table
  column := i.column
  message := some i.message
  suggested_fix := i.suggested_fix
  file_path := i.file_path
  fastapi_expectation := i.fastapi_expectation
  dbt_output := i.dbt_output

/-- `ValidationIssue.from_dict` from models.py; the error case models the
ValueError raised by `ValidationSeverity(...)` on an unknown value. -/
def ValidationIssue.fromDict (d : IssueDict) : Except String ValidationIssue :=
  match severityOfValue (d.severity.getD "error") with
  | none => .error "ValueError: not a valid ValidationSeverity"
  | some sev => .ok
      { severity := sev
        table := d.table.getD "Unknown"
        column := d.column
        message := d.message.getD ""
        category := d.category.getD "Unknown"
        suggested_fix := d.suggested_fix
        file_path := d.file_path
        fastapi_expectation := d.fastapi_expectation
        dbt_output := d.dbt_output }

/-! ### validator.py: YAML documents and loaders -/

/-- The outcome of opening and YAML-parsing one of the two contract files,
as seen by `_load_fastapi_schema` / `_load_dbt_schema`: either an exception
(file missing, YAML parse error, or a document without `.get`, all of which
raise before the conversion loop) or the parsed mapping. -/
inductive LoadInput (α : Type) where
  | failure (exc : String)
  | success (doc : α)

/-- One entry of a `columns:` list in the FastAPI contract YAML. Each key is
read with `dict.get`, except `column["name"]` which raises KeyError when
absent, hence every field is optional here. -/
structure FColumnDoc where
  cname : Option String
  ctype : Option String
  crequired : Option Bool
  cdescription : Option String
deriving DecidableEq, Repr

/-- One table entry of the FastAPI contract YAML. -/
structure FTableDoc where
  columns : List FColumnDoc
  source_model : Option String
deriving DecidableEq, Repr

/-- The FastAPI contract YAML document; `tables` is `none` when the
`tables` key is absent (`fastapi_contract.get("tables", {})`). -/
structure FDoc where
  tables : Option (List (String × FTableDoc))
deriving DecidableEq, Repr

/-- One entry of a `columns:` list in the DBT contract YAML. -/
structure DColumnDoc where
  cname : Option String
  ctype : Option String
  cdescription : Option String
deriving DecidableEq, Repr

/-- One table entry of the DBT contract YAML. -/
structure DTableDoc where
  columns : List DColumnDoc
  source_model : Option String
  materialization : Option String
deriving DecidableEq, Repr

/-- The DBT contract YAML document. -/
structure DDoc where
  tables : Option (List (String × DTableDoc))
deriving DecidableEq, Repr

/-- A column record of the internal FastAPI format built by
`_load_fastapi_schema` (`all_columns[col_name]`). -/
structure FCol where
  name : String
  sql_type : String
  required : Bool
  description : String
deriving DecidableEq, Repr

/-- A table record of the internal FastAPI format
(`fastapi_schemas[table_name]`). -/
structure FSchema where
  table_name : String
  required_columns : List String
  optional_columns : List String
  columns : List (String × FCol)
  source_model : String
deriving DecidableEq, Repr

/-- A column record of the internal DBT format (`columns[col_name]`). -/
structure DCol where
  name : String
  data_type : String
  description : String
deriving DecidableEq, Repr

/-- A table record of the internal DBT format (`dbt_schemas[table_name]`);
`aliasName` embeds the `alias` key, renamed because `alias` is reserved. -/
structure DSchema where
  name : String
  aliasName : String
  materialization : String
  columns : List (String × DCol)
  source_model : String
deriving DecidableEq, Repr

/-- `_load_fastapi_schema` from validator.py: raise on a failed load, then
convert the document to the internal format, grouping columns into
required/optional and a name-keyed mapping. `column["name"]` raises
KeyError when the key is absent. -/
def loadFastapiSchema : LoadInput FDoc → Except String (List (String × FSchema))
  | .failure e => .error e
  | .success d =>
    (d.tables.getD []).foldlM
      (fun schemas (tp : String × FTableDoc) => do
        let (required_columns, optional_columns, all_columns) ←
          tp.2.columns.foldlM
            (fun (st : List String × List String × List (String × FCol)) c => do
              match c.cname with
              | none => Except.error "KeyError: name"
              | some col_name =>
                let all := updateAssoc st.2.2 col_name
                  { name := col_name
                    sql_type := c.ctype.getD "varchar"
                    required := c.crequired.getD false
                    description := c.cdescription.getD "" }
                if c.crequired.getD false then
                  pure (st.1 ++ [col_name], st.2.1, all)
                else
                  pure (st.1, st.2.1 ++ [col_name], all))
            ([], [], [])
        pure (updateAssoc schemas tp.1
          { table_name := tp.1
            required_columns := required_columns
            optional_columns := optional_columns
            columns := all_columns
            source_model := tp.2.source_model.getD "Unknown" }))
      []

/-- `_load_dbt_schema` from validator.py. -/
def loadDbtSchema : LoadInput DDoc → Except String (List (String × DSchema))
  | .failure e => .error e
  | .success d =>
    (d.tables.getD []).foldlM
      (fun schemas (tp : String × DTableDoc) => do
        let columns ←
          tp.2.columns.foldlM
            (fun (cols : List (String × DCol)) c => do
              match c.cname with
              | none => Except.error "KeyError: name"
              | some col_name =>
                pure (updateAssoc cols col_name
                  { name := col_name
                    data_type := c.ctype.getD "unknown"
                    description := c.cdescription.getD "" }))
            []
        pure (updateAssoc schemas tp.1
          { name := tp.2.source_model.getD tp.1
            aliasName := tp.1
            materialization := tp.2.materialization.getD "unknown"
            columns := columns
            source_model := tp.2.source_model.getD "Unknown" }))
      []

/-! ### validator.py: typo-suggestion lookups -/

/-- `_find_similar_table_names` from validator.py: keep candidates whose
lowercased length differs by at most 2 and that share a 3-character
beginning or a 3-character ending in either direction; return the first 3. -/
def findSimilarTableNames (target : String) (candidates : List String) :
    List String :=
  let target_lower := pyLower target
  (candidates.filter (fun candidate =>
    let candidate_lower := pyLower candidate
    ((pyLen target_lower : Int) - (pyLen candidate_lower : Int)).natAbs ≤ 2
    &&
    (pyStartsWith target_lower (pyFirstN candidate_lower 3)
      || pyStartsWith candidate_lower (pyFirstN target_lower 3)
      || pyEndsWith target_lower (strLastN candidate_lower 3)
      || pyEndsWith candidate_lower (strLastN target_lower 3)))).take 3

/-- `_find_similar_column_names` from validator.py: keep candidates whose
lowercased length differs by at most 2 and that share a 2-character
beginning in either direction (the source has no ending check here);
return the first 3. -/
def findSimilarColumnNames (target : String) (candidates : List String) :
    List String :=
  let target_lower := pyLower target
  (candidates.filter (fun candidate =>
    let candidate_lower := pyLower candidate
    ((pyLen target_lower : Int) - (pyLen candidate_lower : Int)).natAbs ≤ 2
    &&
    (pyStartsWith target_lower (pyFirstN candidate_lower 2)
      || pyStartsWith candidate_lower (pyFirstN target_lower 2)))).take 3

/-! ### validator.py: compatibility checks

`_validate_schema_compatibility` and `_validate_column_compatibility` build
each finding with `ValidationIssue(..., suggestion=...)`.  `ValidationIssue`
(models.py) has no `suggestion` parameter (its field is `suggested_fix`), so
in Python this constructor call raises
`TypeError: __init__() got an unexpected keyword argument ...` instead of
producing an issue.  The embedding models that call site as a thrown
exception carrying the TypeError text. -/

/-- The text of the TypeError raised by passing the unknown keyword
argument `suggestion` to the `ValidationIssue` dataclass constructor. -/
def suggestionTypeError : String :=
  "TypeError: ValidationIssue.__init__() got an unexpected keyword argument"

/-- The body of the `for table in missing_in_dbt` loop of
`_validate_schema_compatibility`: the suggestion and dependent models are
computed, then `ValidationIssue(..., suggestion=suggestion)` raises
TypeError, so no issue value is ever produced. -/
def mkMissingTableIssue (tbl : String) (fastapi_schemas : List (String × FSchema))
    (dbt_table_names : List String) : Except String ValidationIssue :=
  let similar_tables := findSimilarTableNames tbl dbt_table_names
  let _suggestion :=
    if !similar_tables.isEmpty then
      "Did you mean: " ++ String.intercalate ", " similar_tables ++ "?"
    else "Create this table in your DBT models"
  let _dependent_models :=
    (fastapi_schemas.filter (fun p => p.2.table_name == tbl)).map (·.1)
  Except.error suggestionTypeError

/-- `_validate_schema_compatibility` from validator.py: for each table the
target needs but the source lacks, attempt to append a CRITICAL issue; the
attempt raises TypeError (see `mkMissingTableIssue`). Extra DBT tables are
only logged. -/
def validateSchemaCompatibility (fastapi_schemas : List (String × FSchema))
    (dbt_schemas : List (String × DSchema)) (issues : List ValidationIssue) :
    Except String (List ValidationIssue) :=
  let fastapi_table_names := fastapi_schemas.map (·.1)
  let dbt_table_names := dbt_schemas.map (·.1)
  let missing_in_dbt :=
    fastapi_table_names.filter (fun t => !dbt_table_names.contains t)
  missing_in_dbt.foldlM
    (fun acc tbl => do
      let issue ← mkMissingTableIssue tbl fastapi_schemas dbt_table_names
      pure (acc ++ [issue]))
    issues

/-- The body of the `for col_name, col_info in fastapi_columns.items()`
loop of `_validate_column_compatibility`: a column present in the DBT
table is skipped; a missing required column computes a typo suggestion and
then attempts `ValidationIssue(..., suggestion=suggestion)`, and a missing
optional column attempts `ValidationIssue(..., suggestion="Consider adding
this column if needed")` — both raise TypeError. -/
def columnCheckStep (dbt_schema : DSchema) (acc2 : List ValidationIssue)
    (cp : String × FCol) : Except String (List ValidationIssue) :=
  if (dbt_schema.columns.map (·.1)).contains cp.1 then
    pure acc2
  else if cp.2.required then
    let similar_cols :=
      findSimilarColumnNames cp.1 (dbt_schema.columns.map (·.1))
    let _suggestion :=
      if !similar_cols.isEmpty then
        "Did you mean: " ++ String.intercalate ", " similar_cols ++ "?"
      else "Add this column to your DBT model"
    Except.error suggestionTypeError
  else
    Except.error suggestionTypeError

/-- The body of the `for table_name, fastapi_schema in
fastapi_schemas.items()` loop of `_validate_column_compatibility`: a
target table absent from the source is skipped (`continue`, already
reported as a missing table); otherwise every declared column is checked. -/
def tableCheckStep (dbt_schemas : List (String × DSchema))
    (acc : List ValidationIssue) (tp : String × FSchema) :
    Except String (List ValidationIssue) :=
  match lookupAssoc dbt_schemas tp.1 with
  | none => pure acc
  | some dbt_schema =>
    tp.2.columns.foldlM (columnCheckStep dbt_schema) acc

/-- `_validate_column_compatibility` from validator.py: run
`tableCheckStep` over the target tables in declaration order. -/
def validateColumnCompatibility (fastapi_schemas : List (String × FSchema))
    (dbt_schemas : List (String × DSchema)) (issues : List ValidationIssue) :
    Except String (List ValidationIssue) :=
  fastapi_schemas.foldlM (tableCheckStep dbt_schemas) issues

/-! ### validator.py: validate_contracts -/

/-- The WARNING issue appended when the FastAPI document yields no tables. -/
def noTablesWarning : ValidationIssue where
  severity := .WARNING
  category := "FastAPI"
  table := "N/A"
  column := none
  message := "No FastAPI tables found in YAML - nothing to validate"

/-- The ERROR issue appended by the `except Exception` handler of
`validate_contracts`. -/
def excIssue (e : String) : ValidationIssue where
  severity := .ERROR
  category := "Validation"
  table := "N/A"
  column := none
  message := "Validation failed with exception: " ++ e

/-- The `try:` body of `validate_contracts`. The error value carries the
contents of `self.issues` at the moment the exception is raised together
with the exception text; `issues` is the `self.issues` list on entry. -/
def validateCore (issues : List ValidationIssue) (finp : LoadInput FDoc)
    (dinp : LoadInput DDoc) :
    Except (List ValidationIssue × String) (Bool × List ValidationIssue) := do
  let fastapi_schemas ← withErr (fun e => (issues, e)) (loadFastapiSchema finp)
  if fastapi_schemas.isEmpty then
    pure (true, issues ++ [noTablesWarning])
  else do
    let dbt_schemas ← withErr (fun e => (issues, e)) (loadDbtSchema dinp)
    let issues1 ← withErr (fun e => (issues, e))
      (validateSchemaCompatibility fastapi_schemas dbt_schemas issues)
    let issues2 ← withErr (fun e => (issues1, e))
      (validateColumnCompatibility fastapi_schemas dbt_schemas issues1)
    let critical_issues :=
      issues2.filter (fun i => i.severity == ValidationSeverity.ERROR)
    pure (critical_issues.isEmpty, issues2)

/-- `validate_contracts` from validator.py. `issues` is the `self.issues`
list on entry (`[]` on a freshly constructed validator); the returned list
is the `self.issues` list after the call. Any exception raised inside the
body is caught, appended as an ERROR issue, and turned into a
`(False, self.issues)` return. -/
def validateContracts (issues : List ValidationIssue) (finp : LoadInput FDoc)
    (dinp : LoadInput DDoc) : Bool × List ValidationIssue :=
  match validateCore issues finp dinp with
  | .ok r => r
  | .error (issuesAt, e) => (false, issuesAt ++ [excIssue e])

/-! ### dbt.py: SQL column extraction

The regex passes of `_find_final_select` are embedded as dedicated
scanners with the exact `re` semantics of the patterns involved
(leftmost match, non-overlapping substitution, greedy and lazy
quantifier backtracking). Functions whose Python loop advances by a
computed amount are written with a fuel argument bounded by the input
length so that they stay structurally recursive and computable; one
fuel unit is spent per step and every step consumes at least one
character, so fuel equal to the input length never runs out. -/

/-- Body of one match of `\x7b\x7b[^}]+\x7d\x7d` (the Jinja pass of
`_find_final_select`): after an opening double brace, a nonempty run of
characters other than a closing brace, then a closing double brace;
returns the rest of the input after the match. -/
def jinjaBody : List Char → Option (List Char)
  | rest =>
    let body := rest.takeWhile (fun c => c ≠ '}')
    if body.isEmpty then none
    else
      match rest.drop body.length with
      | '}' :: '}' :: rest2 => some rest2
      | _ => none

/-- `re.sub` of the Jinja pattern with the empty string: left-to-right
non-overlapping removal. -/
def stripJinjaFuel : Nat → List Char → List Char
  | 0, l => l
  | _, [] => []
  | fuel + 1, '{' :: '{' :: rest =>
    match jinjaBody rest with
    | some rest2 => stripJinjaFuel fuel rest2
    | none => '{' :: stripJinjaFuel fuel ('{' :: rest)
  | fuel + 1, c :: rest => c :: stripJinjaFuel fuel rest

/-- First cleaning pass of `_find_final_select`. -/
def stripJinja (l : List Char) : List Char :=
  stripJinjaFuel l.length l

/-- `re.sub(r"--.*?\n", "\n", s)`: from a double dash, the lazy `.*?`
(which does not cross newlines) ends at the first newline, and the whole
match is replaced by a newline. A trailing comment with no newline never
matches, and then no later match is possible either. -/
def stripLineCommentsFuel : Nat → List Char → List Char
  | 0, l => l
  | _, [] => []
  | fuel + 1, '-' :: '-' :: rest =>
    (match rest.dropWhile (fun c => c ≠ '\n') with
     | '\n' :: rest2 => '\n' :: stripLineCommentsFuel fuel rest2
     | _ => '-' :: '-' :: rest)
  | fuel + 1, c :: rest => c :: stripLineCommentsFuel fuel rest

/-- Second cleaning pass of `_find_final_select`. -/
def stripLineComments (l : List Char) : List Char :=
  stripLineCommentsFuel l.length l

/-- The rest of the input after the first `*/`, if any (the lazy
`[\s\S]*?` of the block-comment pattern stops at the first closer). -/
def afterBlockClose : List Char → Option (List Char)
  | '*' :: '/' :: rest => some rest
  | _ :: rest => afterBlockClose rest
  | [] => none

/-- `re.sub(r"/\*[\s\S]*?\*/", "", s)`: remove from each `/*` up to the
nearest `*/`; a `/*` with no closer anywhere after it never matches. -/
def stripBlockCommentsFuel : Nat → List Char → List Char
  | 0, l => l
  | _, [] => []
  | fuel + 1, '/' :: '*' :: rest =>
    (match afterBlockClose rest with
     | some rest2 => stripBlockCommentsFuel fuel rest2
     | none => '/' :: '*' :: rest)
  | fuel + 1, c :: rest => c :: stripBlockCommentsFuel fuel rest

/-- Third cleaning pass of `_find_final_select`. -/
def stripBlockComments (l : List Char) : List Char :=
  stripBlockCommentsFuel l.length l

/-- Case-insensitive literal match at the head of the input (`pat` is
given in lowercase). -/
def startsWithCI (pat l : List Char) : Bool :=
  (l.take pat.length).map Char.toLower == pat

/-- Length of the whitespace run at the head of the input. -/
def wsRunLen (l : List Char) : Nat :=
  (l.takeWhile isSpaceChar).length

/-- Backtracking of the second, greedy `\s+` of
`select\s+(.*?)\s+from`: try to place the literal `from` after `n`
whitespace characters, for `n` from the full run length down to 1;
returns the rest of the input after `from`. -/
def tryFromAtN (cs : List Char) : Nat → Option (List Char)
  | 0 => none
  | n + 1 =>
    if startsWithCI ['f', 'r', 'o', 'm'] (cs.drop (n + 1)) then
      some ((cs.drop (n + 1)).drop 4)
    else tryFromAtN cs n

/-- Match `\s+from` at the head of the input with a greedy `\s+`. -/
def tryFromAt (cs : List Char) : Option (List Char) :=
  tryFromAtN cs (wsRunLen cs)

/-- The lazy group `(.*?)` of `select\s+(.*?)\s+from` (with DOTALL, so it
may cross newlines): grow the capture one character at a time, stopping at
the first position where `\s+from` matches; returns the capture and the
rest of the input after `from`. -/
def lazyScanGo : List Char → List Char → Option (List Char × List Char)
  | _, [] => none
  | pre, b@(c :: rest) =>
    match tryFromAt b with
    | some rem => some (pre, rem)
    | none => lazyScanGo (pre ++ [c]) rest

/-- Backtracking of the first, greedy `\s+` after `select`: try runs of
`w` whitespace characters for `w` from the full run length down to 1, and
for each run the lazy capture scan. -/
def matchSelectW (afterSel : List Char) : Nat → Option (List Char × List Char)
  | 0 => none
  | w + 1 =>
    match lazyScanGo [] (afterSel.drop (w + 1)) with
    | some r => some r
    | none => matchSelectW afterSel w

/-- One attempted match of `select\s+(.*?)\s+from` (IGNORECASE, DOTALL)
anchored at the head of `l`; returns the capture and the rest of the
input after the match. -/
def matchSelectAt (l : List Char) : Option (List Char × List Char) :=
  if startsWithCI ['s', 'e', 'l', 'e', 'c', 't'] l then
    matchSelectW (l.drop 6) (wsRunLen (l.drop 6))
  else none

/-- `re.finditer` over the cleaned SQL: collect the captures of all
non-overlapping matches, scanning left to right. A successful match
always consumes at least twelve characters, so fuel equal to the input
length never runs out. -/
def collectSelectsFuel : Nat → List Char → List (List Char)
  | 0, _ => []
  | _, [] => []
  | fuel + 1, l@(_ :: rest) =>
    match matchSelectAt l with
    | some (cap, rem) => cap :: collectSelectsFuel fuel rem
    | none => collectSelectsFuel fuel rest

/-- All captures of `select\s+(.*?)\s+from` in the cleaned SQL. -/
def collectSelects (l : List Char) : List (List Char) :=
  collectSelectsFuel l.length l

/-- `_find_final_select` from dbt.py: strip Jinja, line comments and block
comments, then return the stripped capture of the last
`select ... from` match, if any. -/
def findFinalSelect (sql_content : List Char) : Option (List Char) :=
  let cleaned := stripBlockComments (stripLineComments (stripJinja sql_content))
  match (collectSelects cleaned).getLast? with
  | some cap => some (trimChars cap)
  | none => none

/-- The loop body of `_split_columns` from dbt.py: a depth counter
increments on an opening parenthesis and decrements on a closing one;
a comma at depth zero is a split point and is not appended, every other
character is appended to the current column. The current column is held
reversed. -/
def splitColumnsGo : List Char → List Char → Int → List (List Char) →
    List (List Char)
  | [], current, _, acc =>
    if (trimChars current.reverse).isEmpty then acc
    else acc ++ [trimChars current.reverse]
  | c :: rest, current, depth, acc =>
    if c = '(' then splitColumnsGo rest (c :: current) (depth + 1) acc
    else if c = ')' then splitColumnsGo rest (c :: current) (depth - 1) acc
    else if c = ',' && depth == 0 then
      if (trimChars current.reverse).isEmpty then
        splitColumnsGo rest [] depth acc
      else
        splitColumnsGo rest [] depth (acc ++ [trimChars current.reverse])
    else splitColumnsGo rest (c :: current) depth acc

/-- `_split_columns` from dbt.py. -/
def splitColumns (select_clause : List Char) : List (List Char) :=
  splitColumnsGo select_clause [] 0 []

/-- Lowercase a character list into a string (Python `.lower()` on an
extracted name). -/
def mkLowerString (l : List Char) : String :=
  ⟨l.map Char.toLower⟩

/-- `_extract_column_name` from dbt.py. The four regex probes are
embedded as scans over the reversed text:
(a) `\s+as\s+(\w+)$` (IGNORECASE): a trailing word run, preceded by
    whitespace, preceded by `as`, preceded by whitespace;
(b) `(\w+)\.(\w+)$`: a trailing word run preceded by a dot preceded by a
    word character;
(c) `^(\w+)$`: the whole text is one word;
(d) more than one whitespace-separated part, no CASE/WHEN/THEN/ELSE/END
    substring in the uppercased text, and no opening parenthesis in the
    last part: the last part;
(e) otherwise the literal fallback name. -/
def extractColumnName (col_text : List Char) : String :=
  let s := trimChars col_text
  let rev := s.reverse
  let w := rev.takeWhile isWordChar
  let afterW := rev.drop w.length
  let ws1 := afterW.takeWhile isSpaceChar
  let afterWs1 := afterW.drop ws1.length
  let asOk :=
    match afterWs1 with
    | s1 :: a1 :: c :: _ => s1.toLower = 's' && a1.toLower = 'a' && isSpaceChar c
    | _ => false
  if !w.isEmpty && !ws1.isEmpty && asOk then
    mkLowerString w.reverse
  else
    let dotOk :=
      match afterW with
      | '.' :: c :: _ => isWordChar c
      | _ => false
    if !w.isEmpty && dotOk then
      mkLowerString w.reverse
    else if !s.isEmpty && s.all isWordChar then
      mkLowerString s
    else
      let parts := pySplitWs s
      let upper := s.map Char.toUpper
      let hasKeyword :=
        containsSub "CASE".toList upper || containsSub "WHEN".toList upper
          || containsSub "THEN".toList upper || containsSub "ELSE".toList upper
          || containsSub "END".toList upper
      match parts.getLast? with
      | some lastPart =>
        if parts.length > 1 && !hasKeyword && !lastPart.contains '(' then
          mkLowerString lastPart
        else "computed_column"
      | none => "computed_column"

/-- `_infer_data_type` from dbt.py: function-based inference by substring
of the uppercased expression, then name-pattern inference by
case-insensitive regex on the expression, then the varchar default. -/
def inferDataType (expression : List Char) : String :=
  let expression_upper := expression.map Char.toUpper
  if containsSub "COUNT".toList expression_upper
      || containsSub "SUM".toList expression_upper
      || containsSub "ROW_NUMBER".toList expression_upper then "integer"
  else if containsSub "AVG".toList expression_upper then "float"
  else if containsSub "CONCAT".toList expression_upper
      || containsSub "UPPER".toList expression_upper
      || containsSub "LOWER".toList expression_upper
      || containsSub "TRIM".toList expression_upper then "varchar"
  else if containsSub "TIMESTAMP".toList expression_upper
      || containsSub "CURRENT_TIMESTAMP".toList expression_upper then "timestamp"
  else if containsSub "DATE".toList expression_upper then "date"
  else if containsSub "TRUE".toList expression_upper
      || containsSub "FALSE".toList expression_upper
      || containsSub "BOOLEAN".toList expression_upper then "boolean"
  else
    let low := expression.map Char.toLower
    if "_id".toList.isSuffixOf low || low = ['i', 'd'] then "varchar"
    else if "_at".toList.isSuffixOf low || "_time".toList.isSuffixOf low
        || containsSub "timestamp".toList low then "timestamp"
    else if containsSub "count".toList low || containsSub "total".toList low
        || containsSub "sum".toList low then "integer"
    else if containsSub "rate".toList low || containsSub "ratio".toList low
        || containsSub "percentage".toList low
        || containsSub "avg".toList low then "float"
    else "varchar"

/-- A column record produced by `_parse_column` from dbt.py. -/
structure SqlColumn where
  name : String
  sqlType : String
  required : Bool
  description : String
deriving DecidableEq, Repr

/-- `_parse_column` from dbt.py: name extraction, type inference, the
unconditional required flag, and the generated description quoting a
50-character snippet. `_extract_column_name` never returns an empty
name, but the falsy check of the source is kept. -/
def parseColumn (col_text : List Char) : Option SqlColumn :=
  let s := trimChars col_text
  let column_name := extractColumnName s
  if column_name.isEmpty then none
  else some
    { name := column_name
      sqlType := inferDataType s
      required := true
      description := "Generated from: " ++ String.mk (s.take 50)
        ++ (if s.length > 50 then "..." else "") }

/-- `_extract_columns_from_sql` from dbt.py: find the final SELECT
projection, split it on top-level commas, and parse each fragment,
skipping empty fragments and a bare star. -/
def extractColumnsFromSql (sql_content : String) : List SqlColumn :=
  match findFinalSelect sql_content.toList with
  | none => []
  | some final_select =>
    (splitColumns final_select).foldl
      (fun columns part =>
        let col_text := trimChars part
        if !col_text.isEmpty && col_text ≠ ['*'] then
          match parseColumn col_text with
          | some column_info => columns ++ [column_info]
          | none => columns
        else columns)
      []

/-! ### fastapi.py: field analysis

`_is_field_required` and `_python_to_sql_type` inspect a runtime type
annotation through `str(type_hint)`, `__origin__` and `__args__`, and a
pydantic `FieldInfo` through `default` and `default_factory`. A type
annotation is embedded as a finite tree carrying exactly those observable
attributes. -/

/-- A Python type annotation as observed by the extractor: its `str(...)`
rendering, whether its `__origin__` attribute exists and is
`typing.Union`, its `__args__` attribute when present, and whether the
object is `NoneType` itself. -/
inductive TypeHint where
  | mk (pyStr : String) (originIsUnion : Bool) (args : Option (List TypeHint))
      (isNoneType : Bool)

/-- `str(type_hint)` of an embedded annotation. -/
def TypeHint.pyStr : TypeHint → String
  | .mk s _ _ _ => s

/-- Whether `__origin__` exists and is `typing.Union`. -/
def TypeHint.originIsUnion : TypeHint → Bool
  | .mk _ b _ _ => b

/-- The `__args__` attribute, when present. -/
def TypeHint.args : TypeHint → Option (List TypeHint)
  | .mk _ _ a _ => a

/-- Whether the annotation is `NoneType` itself. -/
def TypeHint.isNoneType : TypeHint → Bool
  | .mk _ _ _ n => n

/-- The observable state of a pydantic `FieldInfo`: whether `default` is
the Ellipsis object, and whether `default_factory` is not None. -/
structure PyFieldInfo where
  defaultIsEllipsis : Bool
  defaultFactoryIsSome : Bool
deriving DecidableEq, Repr

/-- `_is_field_required` from fastapi.py, with its four checks in source
order: Optional in the rendered type text, Union origin with NoneType
among the arguments, Ellipsis default, default factory, then the required
default. -/
def isFieldRequired (field_info : PyFieldInfo) (type_hint : TypeHint) : Bool :=
  if strContains type_hint.pyStr "typing.Optional"
      || strContains type_hint.pyStr "Optional[" then false
  else if type_hint.originIsUnion
      && (type_hint.args.getD []).any (fun a => a.isNoneType) then false
  else if field_info.defaultIsEllipsis then true
  else if field_info.defaultFactoryIsSome then false
  else true

/-- `_python_to_sql_type` from fastapi.py. The Python function recurses
into the first non-NoneType member of `__args__` for optional/union
types; the fuel argument bounds that recursion depth and is spent one
unit per unwrap, so `sizeOf` of the annotation is always enough. -/
def pythonToSqlTypeFuel : Nat → TypeHint → String
  | fuel, python_type =>
    let type_str := pyLower python_type.pyStr
    let viaOptional : Option String :=
      if strContains type_str "optional" || strContains type_str "union" then
        match fuel, python_type.args with
        | fuel' + 1, some args =>
          match args.find? (fun a => !a.isNoneType) with
          | some arg => some (pythonToSqlTypeFuel fuel' arg)
          | none => none
        | _, _ => none
      else none
    match viaOptional with
    | some r => r
    | none =>
      if strContains type_str "str" then "varchar"
      else if strContains type_str "int" then "integer"
      else if strContains type_str "float" then "float"
      else if strContains type_str "bool" then "boolean"
      else if strContains type_str "datetime" then "timestamp"
      else if strContains type_str "date" then "date"
      else if strContains type_str "dict" then "json"
      else if strContains type_str "json" then "json"
      else if strContains type_str "list" then "json"
      else "varchar"

mutual

/-- Nesting depth of an embedded annotation, used to bound the
unwrapping recursion of `_python_to_sql_type`. -/
def TypeHint.depth : TypeHint → Nat
  | .mk _ _ none _ => 1
  | .mk _ _ (some args) _ => 1 + TypeHint.depthList args

/-- Greatest nesting depth of a list of embedded annotations. -/
def TypeHint.depthList : List TypeHint → Nat
  | [] => 0
  | t :: ts => max (TypeHint.depth t) (TypeHint.depthList ts)

end

/-- `_python_to_sql_type` from fastapi.py at the standard fuel: the
nesting depth of the annotation, which the unwrap recursion can never
exceed. -/
def pythonToSqlType (python_type : TypeHint) : String :=
  pythonToSqlTypeFuel python_type.depth python_type

/-- The embedding of the `NoneType` class object. -/
def noneTypeHint : TypeHint :=
  .mk "<class 'NoneType'>" false none true

/-- The embedding of the `str` class object. -/
def strHint : TypeHint :=
  .mk "<class 'str'>" false none false

/-- The embedding of the annotation `typing.Optional[str]`, that is
`Union[str, None]`: it renders as `typing.Optional[str]`, its origin is
`typing.Union` and its arguments are `(str, NoneType)`. -/
def optionalStrHint : TypeHint :=
  .mk "typing.Optional[str]" true (some [strHint, noneTypeHint]) false

/-! ### Statement-side definitions

Definitions used only to state claims: the spec-described variant of the
column suggestion lookup (for the refinement claim about
`_find_similar_column_names`), and the hypotheses of the subset claim
expressed over the raw YAML documents. -/

/-- The column-level suggestion computation as the spec describes it:
exactly the table-level computation of `_find_similar_table_names`, with
the 3-character threshold replaced by 2 — including its ending checks. -/
def specColumnSuggestion (target : String) (candidates : List String) :
    List String :=
  let target_lower := pyLower target
  (candidates.filter (fun candidate =>
    let candidate_lower := pyLower candidate
    ((pyLen target_lower : Int) - (pyLen candidate_lower : Int)).natAbs ≤ 2
    &&
    (pyStartsWith target_lower (pyFirstN candidate_lower 2)
      || pyStartsWith candidate_lower (pyFirstN target_lower 2)
      || pyEndsWith target_lower (strLastN candidate_lower 2)
      || pyEndsWith candidate_lower (strLastN target_lower 2)))).take 3

/-- The column-level suggestion computation as amended: keep candidates
whose lowercased length differs by at most 2 and whose lowercased forms
share a 2-character beginning in either direction — with no ending check —
returning the first 3. -/
def specColumnSuggestionAmended (target : String) (candidates : List String) :
    List String :=
  let target_lower := pyLower target
  (candidates.filter (fun candidate =>
    let candidate_lower := pyLower candidate
    (pyLen target_lower ≤ pyLen candidate_lower + 2
      && pyLen candidate_lower ≤ pyLen target_lower + 2)
    &&
    (pyStartsWith target_lower (pyFirstN candidate_lower 2)
      || pyStartsWith candidate_lower (pyFirstN target_lower 2)))).take 3

/-- Table names required by the FastAPI document. -/
def docTargetTables (fd : FDoc) : List String :=
  (fd.tables.getD []).map Prod.fst

/-- Table names provided by the DBT document. -/
def docSourceTables (dd : DDoc) : List String :=
  (dd.tables.getD []).map Prod.fst

/-- Whether every table the target document requires is provided by the
source document. -/
def targetTablesSubset (fd : FDoc) (dd : DDoc) : Bool :=
  (docTargetTables fd).all (fun t => (docSourceTables dd).contains t)

/-- Whether every required column of every target table exists, by name,
in the corresponding source table. -/
def requiredColumnsCovered (fd : FDoc) (dd : DDoc) : Bool :=
  (fd.tables.getD []).all (fun tp =>
    match (dd.tables.getD []).find? (fun q => q.1 == tp.1) with
    | none => false
    | some q =>
      (tp.2.columns.filter (fun c => c.crequired.getD false)).all
        (fun c =>
          (q.2.columns.map (fun cc => cc.cname.getD "")).contains
            (c.cname.getD "")))

/-! ### Behaviour lemmas for validate_contracts -/

/-- The list of target tables missing from the source schemas
(`missing_in_dbt`). -/
def missingTables (fastapi_schemas : List (String × FSchema))
    (dbt_schemas : List (String × DSchema)) : List String :=
  (fastapi_schemas.map (·.1)).filter
    (fun t => !(dbt_schemas.map (·.1)).contains t)

/-- Whether the given target table is present in the source but declares
a column absent from the source table. -/
def tableHasMissingColumn (dbt_schemas : List (String × DSchema))
    (tp : String × FSchema) : Bool :=
  match lookupAssoc dbt_schemas tp.1 with
  | none => false
  | some dbt_schema =>
    tp.2.columns.any (fun cp => !(dbt_schema.columns.map (·.1)).contains cp.1)

/-- There is at least one target table present in the source whose
declared columns are not all present in the source table. -/
def hasMissingColumn (fastapi_schemas : List (String × FSchema))
    (dbt_schemas : List (String × DSchema)) : Bool :=
  fastapi_schemas.any (tableHasMissingColumn dbt_schemas)

/-! ### Except helpers and behaviour characterizations -/

theorem exceptErrorBind {ε α β : Type} (e : ε) (k : α → Except ε β) :
    (Except.error e >>= k) = Except.error e := rfl

theorem exceptPureBind {ε α β : Type} (a : α) (k : α → Except ε β) :
    ((pure a : Except ε α) >>= k) = k a := rfl

theorem exceptOkBind {ε α β : Type} (a : α) (k : α → Except ε β) :
    (Except.ok a >>= k) = k a := rfl

theorem missingFold_eq (f : List (String × FSchema)) (dn : List String)
    (miss : List String) (issues : List ValidationIssue) :
    (miss.foldlM
      (fun acc tbl => do
        let issue ← mkMissingTableIssue tbl f dn
        pure (acc ++ [issue]))
      issues) =
    if miss.isEmpty then Except.ok issues
    else Except.error suggestionTypeError := by
  cases miss with
  | nil => rfl
  | cons t rest => rfl

theorem validateSchemaCompatibility_eq (f : List (String × FSchema))
    (d : List (String × DSchema)) (issues : List ValidationIssue) :
    validateSchemaCompatibility f d issues =
      if (missingTables f d).isEmpty then Except.ok issues
      else Except.error suggestionTypeError :=
  missingFold_eq f (d.map (·.1)) (missingTables f d) issues

theorem columnFold_eq (ds : DSchema) (cols : List (String × FCol))
    (acc : List ValidationIssue) :
    cols.foldlM (columnCheckStep ds) acc =
      if cols.any (fun cp => !(ds.columns.map (·.1)).contains cp.1) then
        Except.error suggestionTypeError
      else Except.ok acc := by
  induction cols generalizing acc with
  | nil => rfl
  | cons cp rest ih =>
    rw [List.foldlM_cons]
    by_cases hc : (ds.columns.map (·.1)).contains cp.1 = true
    · have hstep : columnCheckStep ds acc cp = pure acc := by
        unfold columnCheckStep
        rw [if_pos hc]
      rw [hstep, exceptPureBind, ih]
      simp only [List.any_cons, hc, Bool.not_true, Bool.false_or]
    · have hc' : (ds.columns.map (·.1)).contains cp.1 = false :=
        Bool.not_eq_true _ ▸ hc
      have hstep : columnCheckStep ds acc cp = Except.error suggestionTypeError := by
        unfold columnCheckStep
        rw [if_neg hc]
        by_cases hr : cp.2.required = true
        · rw [if_pos hr]
        · rw [if_neg hr]
      rw [hstep, exceptErrorBind]
      simp only [List.any_cons, hc', Bool.not_false, Bool.true_or, if_true]

theorem tableCheckStep_eq (d : List (String × DSchema))
    (acc : List ValidationIssue) (tp : String × FSchema) :
    tableCheckStep d acc tp =
      if tableHasMissingColumn d tp then Except.error suggestionTypeError
      else Except.ok acc := by
  unfold tableCheckStep tableHasMissingColumn
  cases lookupAssoc d tp.1 with
  | none => rfl
  | some ds => exact columnFold_eq ds tp.2.columns acc

theorem validateColumnCompatibility_eq (f : List (String × FSchema))
    (d : List (String × DSchema)) (issues : List ValidationIssue) :
    validateColumnCompatibility f d issues =
      if hasMissingColumn f d then Except.error suggestionTypeError
      else Except.ok issues := by
  unfold validateColumnCompatibility hasMissingColumn
  induction f generalizing issues with
  | nil => rfl
  | cons tp rest ih =>
    rw [List.foldlM_cons, tableCheckStep_eq]
    by_cases ht : tableHasMissingColumn d tp = true
    · rw [if_pos ht, exceptErrorBind]
      simp only [List.any_cons, ht, Bool.true_or, if_true]
    · have ht' : tableHasMissingColumn d tp = false := Bool.not_eq_true _ ▸ ht
      rw [if_neg ht, exceptOkBind, ih]
      simp only [List.any_cons, ht', Bool.false_or]

theorem validateCore_eq (issues : List ValidationIssue) (finp : LoadInput FDoc)
    (dinp : LoadInput DDoc) :
    validateCore issues finp dinp =
      match loadFastapiSchema finp with
      | .error e => .error (issues, e)
      | .ok fs =>
        if fs.isEmpty then .ok (true, issues ++ [noTablesWarning])
        else
          match loadDbtSchema dinp with
          | .error e => .error (issues, e)
          | .ok ds =>
            if (missingTables fs ds).isEmpty then
              if hasMissingColumn fs ds then
                .error (issues, suggestionTypeError)
              else
                .ok ((issues.filter
                  (fun i => i.severity == ValidationSeverity.ERROR)).isEmpty,
                  issues)
            else .error (issues, suggestionTypeError) := by
  unfold validateCore
  cases hf : loadFastapiSchema finp with
  | error e => rfl
  | ok fs =>
    simp only [withErr, exceptOkBind]
    by_cases hempty : fs.isEmpty = true
    · rw [if_pos hempty, if_pos hempty]
      rfl
    · rw [if_neg hempty, if_neg hempty]
      cases hd : loadDbtSchema dinp with
      | error e => rfl
      | ok ds =>
        simp only [withErr, exceptOkBind, validateSchemaCompatibility_eq]
        by_cases hm : (missingTables fs ds).isEmpty = true
        · rw [if_pos hm, if_pos hm]
          simp only [withErr, exceptOkBind, validateColumnCompatibility_eq]
          by_cases hcol : hasMissingColumn fs ds = true
          · rw [if_pos hcol, if_pos hcol]
            rfl
          · rw [if_neg hcol, if_neg hcol]
            rfl
        · rw [if_neg hm, if_neg hm]
          rfl

theorem validateContracts_eq (issues : List ValidationIssue)
    (finp : LoadInput FDoc) (dinp : LoadInput DDoc) :
    validateContracts issues finp dinp =
      match loadFastapiSchema finp with
      | .error e => (false, issues ++ [excIssue e])
      | .ok fs =>
        if fs.isEmpty then (true, issues ++ [noTablesWarning])
        else
          match loadDbtSchema dinp with
          | .error e => (false, issues ++ [excIssue e])
          | .ok ds =>
            if (missingTables fs ds).isEmpty then
              if hasMissingColumn fs ds then
                (false, issues ++ [excIssue suggestionTypeError])
              else
                ((issues.filter
                  (fun i => i.severity == ValidationSeverity.ERROR)).isEmpty,
                  issues)
            else (false, issues ++ [excIssue suggestionTypeError]) := by
  unfold validateContracts
  rw [validateCore_eq]
  cases hf : loadFastapiSchema finp with
  | error e => rfl
  | ok fs =>
    by_cases hempty : fs.isEmpty = true
    · simp only [if_pos hempty]
    · simp only [if_neg hempty]
      cases hd : loadDbtSchema dinp with
      | error e => rfl
      | ok ds =>
        by_cases hm : (missingTables fs ds).isEmpty = true
        · simp only [if_pos hm]
          by_cases hcol : hasMissingColumn fs ds = true
          · simp only [if_pos hcol]
          · simp only [if_neg hcol]
        · simp only [if_neg hm]

theorem issuesShift (issues : List ValidationIssue) (finp : LoadInput FDoc)
    (dinp : LoadInput DDoc) :
    (validateContracts issues finp dinp).2 =
      issues ++ (validateContracts [] finp dinp).2 := by
  rw [validateContracts_eq, validateContracts_eq]
  cases hf : loadFastapiSchema finp with
  | error e => simp
  | ok fs =>
    by_cases hempty : fs.isEmpty = true
    · simp only [if_pos hempty]
      simp
    · simp only [if_neg hempty]
      cases hd : loadDbtSchema dinp with
      | error e => simp
      | ok ds =>
        by_cases hm : (missingTables fs ds).isEmpty = true
        · simp only [if_pos hm]
          by_cases hcol : hasMissingColumn fs ds = true
          · simp only [if_pos hcol]
            simp
          · simp only [if_neg hcol]
            simp
        · simp only [if_neg hm]
          simp

/-! ### Concrete inputs used by the settled claims -/

/-- FastAPI document: table `users` with required column `id` and optional
column `email`. -/
def c1FastapiDoc : FDoc :=
  ⟨some [("users", ⟨[⟨some "id", some "varchar", some true, none⟩,
    ⟨some "email", some "varchar", some false, none⟩], none⟩)]⟩

/-- DBT document: table `users` with column `id` only. -/
def c1DbtDoc : DDoc :=
  ⟨some [("users", ⟨[⟨some "id", some "varchar", none⟩], none, none⟩)]⟩

/-- FastAPI document of Scenario A: a model requiring table `orders` with
required column `order_id`. -/
def c2FastapiDoc : FDoc :=
  ⟨some [("orders", ⟨[⟨some "order_id", some "varchar", some true, none⟩],
    some "Order"⟩)]⟩

/-- DBT document of Scenario A: no `orders` table, only `users`. -/
def c2DbtDoc : DDoc :=
  ⟨some [("users", ⟨[⟨some "id", some "varchar", none⟩], none, none⟩)]⟩

/-- FastAPI document: table `users` with required columns `id`, `email`. -/
def c3FastapiDoc : FDoc :=
  ⟨some [("users", ⟨[⟨some "id", some "varchar", some true, none⟩,
    ⟨some "email", some "varchar", some true, none⟩], none⟩)]⟩

/-- DBT document: table `users` with column `id` only. -/
def c3DbtDoc : DDoc :=
  ⟨some [("users", ⟨[⟨some "id", some "varchar", none⟩], none, none⟩)]⟩

/-! ### Claims -/

/-- C1: the claim says that whenever the target tables are a subset of the
source tables and every required target column exists in the corresponding
source table, `validate_contracts` succeeds with no CRITICAL issue. The
code violates it: on these documents the premise holds (single table
`users` on both sides, required column `id` present) but the missing
OPTIONAL column `email` makes `_validate_column_compatibility` call
`ValidationIssue(..., suggestion=...)`, which raises TypeError, so the run
returns success `false` with one ERROR-severity issue. -/
theorem c1_subset_success_violated :
    targetTablesSubset c1FastapiDoc c1DbtDoc = true
    ∧ requiredColumnsCovered c1FastapiDoc c1DbtDoc = true
    ∧ (validateContracts [] (.success c1FastapiDoc) (.success c1DbtDoc)).1 = false
    ∧ (validateContracts []
        (.success c1FastapiDoc) (.success c1DbtDoc)).2.map
        (fun i => (i.severity, i.table, i.column))
      = [(ValidationSeverity.ERROR, "N/A", none)] := by
  decide

/-- C2: the claim says a target table missing from the source yields
exactly one CRITICAL issue whose `table` field is the missing table's
name. The code violates it: on Scenario A (`orders` required, absent from
the source) building the Missing Required Table issue raises TypeError, so
the only issue produced is the exception ERROR issue with table `N/A`, and
no issue carries table `orders`. -/
theorem c2_missing_table_issue_violated :
    (docSourceTables c2DbtDoc).contains "orders" = false
    ∧ (docTargetTables c2FastapiDoc).contains "orders" = true
    ∧ (validateContracts []
        (.success c2FastapiDoc) (.success c2DbtDoc)).2.map
        (fun i => (i.severity, i.table, i.column))
      = [(ValidationSeverity.ERROR, "N/A", none)]
    ∧ ((validateContracts []
        (.success c2FastapiDoc) (.success c2DbtDoc)).2.filter
        (fun i => i.table == "orders")) = []
    ∧ (validateContracts [] (.success c2FastapiDoc) (.success c2DbtDoc)).1
      = false := by
  decide

/-- C3: the claim says a required target column absent from a present
source table yields exactly one CRITICAL issue whose `column` field is the
missing column's name (and optional ones a WARNING). The code violates
it: with table `users` present and required column `email` absent,
building the Missing Required Column issue raises TypeError, so the only
issue produced is the exception ERROR issue with column `None`, and no
issue carries column `email`. -/
theorem c3_missing_column_issue_violated :
    (docSourceTables c3DbtDoc).contains "users" = true
    ∧ (validateContracts []
        (.success c3FastapiDoc) (.success c3DbtDoc)).2.map
        (fun i => (i.severity, i.table, i.column))
      = [(ValidationSeverity.ERROR, "N/A", none)]
    ∧ ((validateContracts []
        (.success c3FastapiDoc) (.success c3DbtDoc)).2.filter
        (fun i => i.column == some "email")) = []
    ∧ (validateContracts [] (.success c3FastapiDoc) (.success c3DbtDoc)).1
      = false := by
  decide

/-- C4: `validate_contracts` always returns a `(success, issues)` pair and
never propagates an exception: whenever its body raises (missing file,
malformed document, or any internal exception such as the TypeError from
the issue constructor), the exception is caught, appended as an
ERROR-severity issue, and the call returns success `false`. -/
theorem c4_exceptions_become_error_issues
    (issues : List ValidationIssue) (finp : LoadInput FDoc)
    (dinp : LoadInput DDoc) (issuesAt : List ValidationIssue) (e : String)
    (h : validateCore issues finp dinp = .error (issuesAt, e)) :
    validateContracts issues finp dinp = (false, issuesAt ++ [excIssue e])
    ∧ (excIssue e).severity = ValidationSeverity.ERROR := by
  constructor
  · unfold validateContracts
    rw [h]
  · rfl

/-- Witness for C4 at a concrete failing input: a missing FastAPI YAML
file. -/
theorem c4_exceptions_become_error_issues_witness :
    validateContracts []
      (.failure "FileNotFoundError: FastAPI YAML file not found")
      (.failure "FileNotFoundError: DBT YAML file not found")
    = (false, [excIssue "FileNotFoundError: FastAPI YAML file not found"])
    ∧ (excIssue "FileNotFoundError: FastAPI YAML file not found").severity
      = ValidationSeverity.ERROR :=
  c4_exceptions_become_error_issues [] _ _ []
    "FileNotFoundError: FastAPI YAML file not found" rfl

/-- C5 counterexample: the claim says the column-level candidates are
computed exactly like the table-level ones with the threshold lowered from
3 to 2, which would include the shared-ending checks. At target `my_id`
with candidate set containing only `ur_id` the spec computation keeps the
candidate through the shared ending `id`, but `_find_similar_column_names`
has no ending check and returns nothing. -/
theorem c5_column_suggestion_counterexample :
    findSimilarColumnNames "my_id" ["ur_id"]
      ≠ specColumnSuggestion "my_id" ["ur_id"]
    ∧ findSimilarColumnNames "my_id" ["ur_id"] = []
    ∧ specColumnSuggestion "my_id" ["ur_id"] = ["ur_id"] := by
  decide

/-- C5 as amended: for every target column name and candidate set, the
column-level candidates keep candidates whose lowercased length differs by
at most 2 and that share a 2-character beginning in either direction -
with no ending check - returning the first 3. -/
theorem c5_column_suggestion_amended (target : String)
    (candidates : List String) :
    findSimilarColumnNames target candidates
      = specColumnSuggestionAmended target candidates := by
  simp only [findSimilarColumnNames, specColumnSuggestionAmended]
  congr 1
  refine List.filter_congr ?_
  intro c _
  have h1 : ((((pyLen (pyLower target) : Int) - (pyLen (pyLower c) : Int)).natAbs ≤ 2))
      ↔ (pyLen (pyLower target) ≤ pyLen (pyLower c) + 2
        ∧ pyLen (pyLower c) ≤ pyLen (pyLower target) + 2) := by
    omega
  rw [show decide (((pyLen (pyLower target) : Int) - (pyLen (pyLower c) : Int)).natAbs ≤ 2)
      = decide (pyLen (pyLower target) ≤ pyLen (pyLower c) + 2
        ∧ pyLen (pyLower c) ≤ pyLen (pyLower target) + 2) from
      decide_eq_decide.mpr h1, Bool.decide_and]

/-- C6: serializing any `ValidationIssue` with `to_dict` and deserializing
with `from_dict` succeeds and reproduces the severity, table, column and
message of the original. -/
theorem c6_issue_dict_round_trip (i : ValidationIssue) :
    ∃ i2, ValidationIssue.fromDict (ValidationIssue.toDict i) = .ok i2
      ∧ i2.severity = i.severity ∧ i2.table = i.table
      ∧ i2.column = i.column ∧ i2.message = i.message := by
  obtain ⟨sev, tbl, col, msg, cat, sf, fp, fe, dout⟩ := i
  cases sev <;> exact ⟨_, rfl, rfl, rfl, rfl, rfl⟩

/-- C7: running the SQL column extraction on
`select id as user_id, email, count(*) as total from raw_users` yields
exactly the columns `user_id` (varchar, required), `email` (varchar,
required) and `total` (integer, required), in that order. -/
theorem c7_scenario_b_extraction :
    (extractColumnsFromSql
      "select id as user_id, email, count(*) as total from raw_users").map
      (fun c => (c.name, c.sqlType, c.required))
    = [("user_id", "varchar", true), ("email", "varchar", true),
       ("total", "integer", true)] := by
  decide

/-- C8: for every field whose annotation is the optional string type
`typing.Optional[str]`, the extractor derives required `false` - the
optional check fires before the default-sentinel and default-factory
checks, whatever the field's default state - and SQL type `varchar`. -/
theorem c8_optional_str_field (field_info : PyFieldInfo) :
    isFieldRequired field_info optionalStrHint = false
    ∧ pythonToSqlType optionalStrHint = "varchar" :=
  ⟨rfl, by decide⟩

/-- C9: a second `validate_contracts` call on the same validator instance
does not start from a clean state: `self.issues` is never reset, so the
list returned by the second call is the first call's list followed by a
fresh copy of the same issues - it contains every issue of the first call
and accumulates duplicates. -/
theorem c9_issues_accumulate_across_calls (finp : LoadInput FDoc)
    (dinp : LoadInput DDoc) :
    (validateContracts (validateContracts [] finp dinp).2 finp dinp).2
      = (validateContracts [] finp dinp).2
        ++ (validateContracts [] finp dinp).2 :=
  issuesShift (validateContracts [] finp dinp).2 finp dinp

/-- C10: when the FastAPI document loads successfully but yields no
tables (empty or absent `tables` mapping), `validate_contracts` on a
fresh validator returns success `true` together with exactly one
WARNING-severity issue with table `N/A`, whatever the DBT input - no
table-level or column-level comparison is performed. -/
theorem c10_no_tables_warning (ts : Option (List (String × FTableDoc)))
    (dinp : LoadInput DDoc) (h : ts.getD [] = []) :
    validateContracts [] (.success ⟨ts⟩) dinp = (true, [noTablesWarning])
    ∧ noTablesWarning.severity = ValidationSeverity.WARNING
    ∧ noTablesWarning.table = "N/A" := by
  cases ts with
  | none => exact ⟨rfl, rfl, rfl⟩
  | some l =>
    have hl : l = [] := h
    subst hl
    exact ⟨rfl, rfl, rfl⟩

/-- Witness for C10: an absent `tables` mapping and a failing DBT load. -/
theorem c10_no_tables_warning_witness :
    validateContracts [] (.success ⟨none⟩)
      (.failure "FileNotFoundError: DBT YAML file not found")
    = (true, [noTablesWarning])
    ∧ noTablesWarning.severity = ValidationSeverity.WARNING
    ∧ noTablesWarning.table = "N/A" :=
  c10_no_tables_warning none _ rfl
